import Mathlib

/-!
Shallow embedding of `src/server.py` (a Flask click-redirection and
attribution logger backed by SQLite), together with models of the parts of
the Python standard library the server's observable behaviour depends on:
`int(...)` parsing, `str.strip`, `str.replace("@", "")`, `str.split`, and
`urllib.parse.urlparse` restricted to the `netloc`/`path` components that
`_extract_x_username` reads.

Modelling conventions:
- SQLite rows of the `clicks` table are the `Row` structure (the
  autoincrement `id` column is surrogate and never read by the program, so
  it is dropped); the table is a `List Row` in insertion order.
- `INSERT OR IGNORE` under the unique index on
  `(session_num, post_num, tg_id)` is `save_click`: append unless a row
  with the same triple exists.
- `datetime.now().strftime(...)` is passed in as an explicit `now` string.
- Flask query parameters are `Option String` (absent vs present); the two
  in-process side-channel dictionaries are functions `Int -> Option _`.
- Character-set details are modelled at ASCII fidelity (the Python
  functions additionally handle non-ASCII whitespace, digits and case
  folding); bracketed (IPv6) network locations are conservatively modelled
  as parse failures, which `_extract_x_username` maps to "Unknown" exactly
  as it maps the `ValueError` CPython raises for invalid ones.
-/

/-- ASCII whitespace recognised by Python `str.strip()` and `int()`. -/
def pySpace (c : Char) : Bool :=
  c == ' ' || c == '\t' || c == '\n' || c == '\r' ||
  c == Char.ofNat 11 || c == Char.ofNat 12

/-- Python `str.strip()` on a character list: drop whitespace at both ends. -/
def pyStripList (l : List Char) : List Char :=
  ((l.dropWhile pySpace).reverse.dropWhile pySpace).reverse

/-- Python `str.strip()`. -/
def pyStrip (s : String) : String :=
  String.mk (pyStripList s.data)

/-- Python `str.replace("@", "")`: delete every at-sign. -/
def removeAts (s : String) : String :=
  String.mk (s.data.filter (fun c => c != '@'))

/-- Digit run of Python `int()`: base-10 digits where a single underscore
may stand between two digits (`1_000` parses, `_1`, `1_`, `1__0` do not).
The flag records whether the previous character was a digit. -/
def pyDigitsAux : List Char → Bool → Nat → Option Nat
  | [], seen, acc => if seen then some acc else none
  | c :: rest, seen, acc =>
    if c.isDigit then pyDigitsAux rest true (acc * 10 + (c.toNat - 48))
    else if c == '_' && seen then pyDigitsAux rest false acc
    else none

/-- Python `int(s)` on a string: surrounding whitespace stripped, optional
sign, then a digit run; `none` models `ValueError`. -/
def pyInt (s : String) : Option Int :=
  match pyStripList s.data with
  | '+' :: rest => (pyDigitsAux rest false 0).map (fun n => (n : Int))
  | '-' :: rest => (pyDigitsAux rest false 0).map (fun n => -(n : Int))
  | l => (pyDigitsAux l false 0).map (fun n => (n : Int))

/-- `int(request.args.get(key, 0))`: an absent parameter yields the integer
default `0` (so `int` succeeds), a present one is parsed by `pyInt`. -/
def getIntArg (o : Option String) : Option Int :=
  match o with
  | none => some 0
  | some s => pyInt s

/-- C0 control characters and space: what CPython `urlsplit` lstrips. -/
def c0OrSpace (c : Char) : Bool :=
  c.toNat ≤ 32

/-- The bytes CPython `urlsplit` removes anywhere in the URL. -/
def unsafeUrlByte (c : Char) : Bool :=
  c == '\t' || c == '\r' || c == '\n'

/-- Characters allowed in a URL scheme by `urllib.parse`. -/
def schemeChar (c : Char) : Bool :=
  c.isAlpha || c.isDigit || c == '+' || c == '-' || c == '.'

/-- Schemes for which `urlparse` splits `;params` off the path
(`urllib.parse.uses_params`). -/
def usesParams : List String :=
  ["", "ftp", "hdl", "prospero", "http", "imap", "https", "shttp",
   "rtsp", "rtsps", "rtspu", "sip", "sips", "mms", "sftp", "tel"]

/-- Python `list.split(sep)` for a single separator character: splitting
never yields an empty list, and adjacent separators yield empty pieces. -/
def splitOnChar (sep : Char) : List Char → List (List Char)
  | [] => [[]]
  | c :: rest =>
    let r := splitOnChar sep rest
    if c == sep then [] :: r
    else
      match r with
      | h :: t => (c :: h) :: t
      | [] => [[c]]

/-- Substring test: Python `needle in hay` on strings. -/
def listContains (needle : List Char) : List Char → Bool
  | [] => needle.isEmpty
  | c :: rest => needle.isPrefixOf (c :: rest) || listContains needle rest

/-- CPython `_splitparams`: drop `;params` from the last path segment. Only
called when a semicolon is present in the path. -/
def splitParamsPath (p : List Char) : List Char :=
  if p.contains '/' then
    match (p.reverse.findIdx? (fun c => c == '/')) with
    | none => p
    | some rback =>
      let k := p.length - 1 - rback
      match ((p.drop k).findIdx? (fun c => c == ';')) with
      | none => p
      | some j => p.take (k + j)
  else p.takeWhile (fun c => c != ';')

/-- `urllib.parse.urlparse(url)` restricted to the `(netloc, path)` pair,
following CPython 3.11 `urlsplit`: lstrip C0-control/space, delete
tab/CR/LF, split a syntactically valid scheme, take the network location
after `//` up to `/?#`, cut fragment then query off the remainder, and
split `;params` for the schemes in `usesParams`. `none` models the
`ValueError` raised for bracketed network locations (invalid IPv6 hosts;
valid ones are conservatively folded into the same failure). -/
def pyUrlparseNP (url : String) : Option (String × String) :=
  let l1 := ((url.data.dropWhile c0OrSpace).filter (fun c => !(unsafeUrlByte c)))
  let before := l1.takeWhile (fun c => c != ':')
  let schemeOk :=
    decide (before.length < l1.length) &&
    (match before with
     | [] => false
     | c :: _ => c.isAlpha) &&
    before.all schemeChar
  let scheme := if schemeOk then String.mk (before.map Char.toLower) else ""
  let l2 := if schemeOk then l1.drop (before.length + 1) else l1
  let netlocRest : List Char × List Char :=
    match l2 with
    | '/' :: '/' :: rest =>
      let n := rest.takeWhile (fun c => c != '/' && c != '?' && c != '#')
      (n, rest.drop n.length)
    | _ => ([], l2)
  let netloc := netlocRest.1
  if netloc.contains '[' || netloc.contains ']' then none
  else
    let l3 := netlocRest.2.takeWhile (fun c => c != '#')
    let l4 := l3.takeWhile (fun c => c != '?')
    let path :=
      if usesParams.contains scheme && l4.contains ';' then splitParamsPath l4
      else l4
    some (String.mk netloc, String.mk path)

/-- `_extract_x_username(url)` from `src/server.py`: empty URL or parse
failure gives "Unknown"; if the lowercased network location contains
"x.com" as a substring, the first non-empty path segment with every "@"
deleted is returned, else "Unknown". -/
def _extract_x_username (url : String) : String :=
  if url = "" then "Unknown"
  else
    match pyUrlparseNP url with
    | none => "Unknown"
    | some np =>
      if listContains "x.com".data (np.1.data.map Char.toLower) then
        match (splitOnChar '/' np.2.data).filter (fun p => !p.isEmpty) with
        | [] => "Unknown"
        | p :: _ => String.mk (p.filter (fun c => c != '@'))
      else "Unknown"

/-- One row of the SQLite `clicks` table (the unread autoincrement `id`
column is dropped). -/
structure Row where
  session_num : Int
  post_num : Int
  tg_id : Int
  tg_username : String
  x_username : String
  x_link : String
  clicked_at : String
deriving DecidableEq, Repr

/-- The unique-index key comparison on `(session_num, post_num, tg_id)`. -/
def sameTriple (r : Row) (s p u : Int) : Bool :=
  decide (r.session_num = s) && decide (r.post_num = p) && decide (r.tg_id = u)

/-- `save_click` from `src/server.py`: `INSERT OR IGNORE` under the unique
index `idx_click_unique` — append the row unless one with the same
`(session_num, post_num, tg_id)` triple already exists. -/
def save_click (db : List Row) (s p u : Int)
    (tgu xu xl now : String) : List Row :=
  if db.any (fun r => sameTriple r s p u) then db
  else db ++ [⟨s, p, u, tgu, xu, xl, now⟩]

/-- One value of the `session_links_ref` dictionary: the fields `/visit`
reads, each optional because Python `dict.get` returns `None` when the key
is absent. -/
structure LinkInfo where
  url : Option String
  poster_id : Option Int
  x_username : Option String
deriving DecidableEq, Repr

/-- One value of the `user_cache_ref` dictionary (a `telegram.User`):
`username` is `none` when the attribute is `None`, `full_name` is `none`
when the attribute is absent so that `getattr`'s default applies. -/
structure CachedUser where
  username : Option String
  full_name : Option String
deriving DecidableEq, Repr

/-- The two process-local side-channel dictionaries. -/
structure Env where
  session_links : Int → Option LinkInfo
  user_cache : Int → Option CachedUser

/-- The query parameters of a `/visit` request; `none` is an absent key. -/
structure VisitReq where
  uid : Option String
  post : Option String
  sess : Option String
  target : Option String
  uname : Option String
  xuser : Option String

/-- The two HTTP responses `/visit` can produce: `"Bad request", 400`, or a
302 redirect with the given Location. -/
inductive HttpResp where
  | badRequest
  | redirect (location : String)
deriving DecidableEq, Repr

/-- Resolution of `target_url` in `visit`: stripped explicit `target`
parameter, else the stripped side-channel link URL, else the hardcoded
fallback `https://x.com`. -/
def resolve_target (ot : Option String) (li : Option LinkInfo) : String :=
  let t0 := pyStrip (ot.getD "")
  let t1 :=
    if t0 = "" then
      match li with
      | some l => pyStrip (l.url.getD "")
      | none => ""
    else t0
  if t1 = "" then "https://x.com" else t1

/-- Resolution of `tg_username` in `visit`: stripped explicit `uname`, else
the cached user (`"@" + username` when the username is truthy, else the
`full_name` attribute with `getattr` default `"User <uid>"`), else
`"User <uid>"`. -/
def resolve_tg_username (oun : Option String) (cached : Option CachedUser)
    (uid : Int) : String :=
  let t0 := pyStrip (oun.getD "")
  if t0 = "" then
    match cached with
    | none => "User " ++ toString uid
    | some c =>
      match c.username with
      | some u =>
        if u = "" then c.full_name.getD ("User " ++ toString uid)
        else "@" ++ u
      | none => c.full_name.getD ("User " ++ toString uid)
  else t0

/-- Resolution of `x_username` in `visit` before final normalization:
explicit `xuser` with at-signs deleted then stripped, else the
side-channel handle with at-signs deleted then stripped, else
`_extract_x_username target_url`. -/
def resolve_x_username (ox : Option String) (li : Option LinkInfo)
    (target_url : String) : String :=
  let x0 := pyStrip (removeAts (ox.getD ""))
  let x1 :=
    if x0 = "" then
      match li with
      | some l => pyStrip (removeAts (l.x_username.getD ""))
      | none => ""
    else x0
  if x1 = "" then _extract_x_username target_url else x1

/-- The `/visit` route from `src/server.py`. The three `int(...)`
conversions are attempted first and any failure is the caught
`ValueError`, i.e. `"Bad request", 400`; then `target_url` is resolved,
the self-click guard may answer with the redirect without saving, and
otherwise the resolved row is saved (duplicates ignored) and the redirect
issued. -/
def visit (env : Env) (req : VisitReq) (db : List Row) (now : String) :
    HttpResp × List Row :=
  match getIntArg req.uid, getIntArg req.post, getIntArg req.sess with
  | some uid, some post_num, some sess_num =>
    let link_info := env.session_links post_num
    let target_url := resolve_target req.target link_info
    if (match link_info with
        | some l => decide (l.poster_id = some uid)
        | none => false) then
      (HttpResp.redirect target_url, db)
    else
      let tg_username := resolve_tg_username req.uname (env.user_cache uid) uid
      let x0 := resolve_x_username req.xuser link_info target_url
      let x_username := if x0 ≠ "Unknown" then "@" ++ x0 else "Unknown"
      (HttpResp.redirect target_url,
        save_click db sess_num post_num uid tg_username x_username target_url now)
  | _, _, _ => (HttpResp.badRequest, db)

/-- Row order of `ORDER BY clicked_at` (ascending, SQLite BINARY collation
on UTF-8 text = codepoint-lexicographic string order). -/
def rowLe (a b : Row) : Bool :=
  decide (a.clicked_at ≤ b.clicked_at)

/-- Insertion step of the sort modelling `ORDER BY clicked_at`. -/
def insertRow (x : Row) : List Row → List Row
  | [] => [x]
  | y :: ys => if rowLe x y then x :: y :: ys else y :: insertRow x ys

/-- Stable sort by `clicked_at`, modelling SQLite `ORDER BY clicked_at`. -/
def sortRows : List Row → List Row
  | [] => []
  | x :: xs => insertRow x (sortRows xs)

/-- The SQL query of `get_session_clicks`: rows of the session, ordered
ascending by `clicked_at`. -/
def get_session_clicks (db : List Row) (s : Int) : List Row :=
  sortRows (db.filter (fun r => decide (r.session_num = s)))

/-- A JSON scalar value of the wire format. -/
inductive JVal where
  | str (s : String)
  | int (i : Int)
deriving DecidableEq, Repr

/-- The JSON object built for one row by `get_session_clicks`, with the
wire field names verbatim. -/
def clickJson (r : Row) : List (String × JVal) :=
  [("post_num", JVal.int r.post_num),
   ("tg_id", JVal.int r.tg_id),
   ("tg_username", JVal.str r.tg_username),
   ("x_username", JVal.str r.x_username),
   ("x_link", JVal.str r.x_link),
   ("clicked_at", JVal.str r.clicked_at)]

/-- The body of `GET /api/clicks/<session_num>`: the value under the
`"clicks"` key. -/
def api_clicks (db : List Row) (s : Int) : List (List (String × JVal)) :=
  (get_session_clicks db s).map clickJson

/-- The `GET /api/clicks` route as a state transformer: the store is
returned untouched next to the response body (the route only runs a
SELECT). -/
def get_session_clicks_route (db : List Row) (s : Int) :
    List Row × List (List (String × JVal)) :=
  (db, api_clicks db s)

/-- `clear_session_clicks` from `src/server.py`:
`DELETE FROM clicks WHERE session_num=?`. Returns the remaining store and
the number of rows the DELETE removed. -/
def clear_session_clicks (db : List Row) (s : Int) : List Row × Nat :=
  let remaining := db.filter (fun r => !(decide (r.session_num = s)))
  (remaining, db.length - remaining.length)

/-! ## Helper lemmas -/

/-- Concrete side-channel state with both dictionaries empty. -/
def env0 : Env :=
  ⟨fun _ => none, fun _ => none⟩

/-- Concrete side-channel state: link metadata for post 3 posted by user
555, as in the spec's self-click scenario. -/
def envSelf : Env :=
  ⟨fun p => if p = 3 then some ⟨some "https://x.com/alice", some 555, none⟩ else none,
   fun _ => none⟩

/-- A `/visit` request with every query parameter absent. -/
def reqAllAbsent : VisitReq :=
  ⟨none, none, none, none, none, none⟩

theorem sameTriple_mk (s p u : Int) (a b c t : String) :
    sameTriple ⟨s, p, u, a, b, c, t⟩ s p u = true := by
  simp [sameTriple]

theorem save_click_mem {db : List Row} {s p u : Int} {a b c t : String} :
    ∀ r ∈ save_click db s p u a b c t, r ∈ db ∨ r = ⟨s, p, u, a, b, c, t⟩ := by
  intro r hr
  unfold save_click at hr
  by_cases h : db.any (fun q => sameTriple q s p u) <;> simp [h] at hr
  · exact Or.inl hr
  · rcases hr with hr | hr
    · exact Or.inl hr
    · exact Or.inr hr

theorem save_click_exists_triple (db : List Row) (s p u : Int)
    (a b c t : String) :
    (save_click db s p u a b c t).any (fun r => sameTriple r s p u) = true := by
  by_cases h : db.any (fun r => sameTriple r s p u) = true
  · simp [save_click, h]
  · have hf : db.any (fun r => sameTriple r s p u) = false := by
      simpa using h
    simp [save_click, hf, sameTriple_mk]

theorem filter_length_partition (p : Row → Bool) (l : List Row) :
    (l.filter p).length + (l.filter (fun a => !(p a))).length = l.length := by
  induction l with
  | nil => simp
  | cons a t ih =>
    cases hp : p a <;> simp [List.filter_cons, hp] <;> omega

/-! ## C1 -/

/-- C1: calling `save_click` twice with the same
`(session_num, post_num, tg_id)` triple is idempotent — the second call is
a no-op on the store — and, starting from a store with no row for the
triple, the two calls leave exactly one row for the triple, carrying the
values and timestamp of the first call. -/
theorem c1_idempotent_save (db : List Row) (s p u : Int)
    (a b c t a2 b2 c2 t2 : String) :
    save_click (save_click db s p u a b c t) s p u a2 b2 c2 t2
      = save_click db s p u a b c t ∧
    ((∀ r ∈ db, sameTriple r s p u = false) →
      (save_click (save_click db s p u a b c t) s p u a2 b2 c2 t2).filter
          (fun r => sameTriple r s p u)
        = [⟨s, p, u, a, b, c, t⟩]) := by
  have hsecond :
      save_click (save_click db s p u a b c t) s p u a2 b2 c2 t2
        = save_click db s p u a b c t := by
    conv =>
      lhs
      rw [save_click]
    rw [save_click_exists_triple]
    simp
  refine ⟨hsecond, ?_⟩
  intro hnone
  rw [hsecond]
  unfold save_click
  have hany : db.any (fun r => sameTriple r s p u) = false := by
    rw [List.any_eq_false]
    intro r hr
    simp [hnone r hr]
  rw [hany]
  simp only [Bool.false_eq_true, if_false, List.filter_append]
  rw [List.filter_eq_nil_iff.mpr (fun r hr => by simp [hnone r hr])]
  simp [sameTriple_mk]

/-- Witness for C1 at a concrete store and triple. -/
theorem c1_idempotent_save_witness :
    (∀ r ∈ [Row.mk 9 9 9 "x" "y" "z" "T0"], sameTriple r 1 3 555 = false) ∧
    (save_click (save_click [Row.mk 9 9 9 "x" "y" "z" "T0"] 1 3 555 "User 555" "@alice" "https://x.com/alice" "T1")
        1 3 555 "other" "@bob" "https://x.com/bob" "T2").filter
        (fun r => sameTriple r 1 3 555)
      = [⟨1, 3, 555, "User 555", "@alice", "https://x.com/alice", "T1"⟩] := by
  constructor
  · decide
  · exact (c1_idempotent_save [Row.mk 9 9 9 "x" "y" "z" "T0"] 1 3 555
      "User 555" "@alice" "https://x.com/alice" "T1" "other" "@bob"
      "https://x.com/bob" "T2").2 (by decide)

/-! ## C8 -/

/-- C8: `clear_session_clicks` deletes exactly the rows of the given
session — the deleted count is the number of such rows, a row survives iff
it is a stored row of another session, and the lengths add up — and on a
session with no rows it deletes zero rows and leaves the store unchanged;
rows of every other session are preserved in order. -/
theorem c8_purge_exact (db : List Row) (s : Int) :
    (clear_session_clicks db s).2
        = (db.filter (fun r => decide (r.session_num = s))).length ∧
    (∀ r, r ∈ (clear_session_clicks db s).1 ↔ r ∈ db ∧ r.session_num ≠ s) ∧
    (clear_session_clicks db s).1.length + (clear_session_clicks db s).2
        = db.length ∧
    ((∀ r ∈ db, r.session_num ≠ s) →
      (clear_session_clicks db s).1 = db ∧ (clear_session_clicks db s).2 = 0) ∧
    (∀ s2, s2 ≠ s →
      (clear_session_clicks db s).1.filter (fun r => decide (r.session_num = s2))
        = db.filter (fun r => decide (r.session_num = s2))) := by
  have hpart := filter_length_partition (fun r => decide (r.session_num = s)) db
  have hlenle :
      (db.filter (fun r => !(decide (r.session_num = s)))).length ≤ db.length :=
    List.length_filter_le _ _
  have hcount :
      (clear_session_clicks db s).2
        = (db.filter (fun r => decide (r.session_num = s))).length := by
    simp only [clear_session_clicks]
    omega
  refine ⟨hcount, ?_, ?_, ?_, ?_⟩
  · intro r
    simp [clear_session_clicks, List.mem_filter]
  · simp only [clear_session_clicks]
    omega
  · intro hnone
    have hall : db.filter (fun r => !(decide (r.session_num = s))) = db := by
      rw [List.filter_eq_self]
      intro r hr
      simp [hnone r hr]
    constructor
    · simpa [clear_session_clicks] using hall
    · simp only [clear_session_clicks, hall]
      omega
  · intro s2 hs2
    simp only [clear_session_clicks]
    rw [List.filter_filter]
    apply List.filter_congr
    intro r _
    by_cases hr : r.session_num = s2
    · simp [hr, hs2]
    · simp [hr]

/-- Witness for C8 at a concrete store: purging session 2 deletes its two
rows, keeps session 1, and purging the now-absent session 5 is a no-op. -/
theorem c8_purge_exact_witness :
    (∀ r ∈ [Row.mk 1 1 7 "a" "@a" "u" "T1"], r.session_num ≠ (5 : Int)) ∧
    (clear_session_clicks [Row.mk 1 1 7 "a" "@a" "u" "T1"] 5).1
        = [Row.mk 1 1 7 "a" "@a" "u" "T1"] ∧
    (clear_session_clicks [Row.mk 1 1 7 "a" "@a" "u" "T1"] 5).2 = 0 := by
  refine ⟨by decide, ?_⟩
  have h := ((c8_purge_exact [Row.mk 1 1 7 "a" "@a" "u" "T1"] 5).2.2.2.1) (by decide)
  exact h

/-! ## Resolver helper lemmas -/

theorem resolve_target_of_override (ot : Option String) (li : Option LinkInfo)
    (h : pyStrip (ot.getD "") ≠ "") :
    resolve_target ot li = pyStrip (ot.getD "") := by
  simp [resolve_target, h]

theorem resolve_target_ne_empty (ot : Option String) (li : Option LinkInfo) :
    resolve_target ot li ≠ "" := by
  unfold resolve_target
  dsimp only
  split
  · split <;> simp_all
  · simp_all

/-! ## C3 -/

/-- C3: when side-channel link metadata exists for the request's post and
its poster identity equals the visitor identity, `visit` persists nothing
(the store is returned unchanged) and still answers with a redirect to the
fully resolved `target_url`. -/
theorem c3_self_click_suppression (env : Env) (req : VisitReq) (db : List Row)
    (now : String) (uid post sess : Int) (li : LinkInfo)
    (h1 : getIntArg req.uid = some uid) (h2 : getIntArg req.post = some post)
    (h3 : getIntArg req.sess = some sess)
    (h4 : env.session_links post = some li) (h5 : li.poster_id = some uid) :
    visit env req db now
      = (HttpResp.redirect (resolve_target req.target (some li)), db) := by
  simp [visit, h1, h2, h3, h4, h5]

/-- Witness for C3: link metadata for post 3 has poster 555; a visit with
uid 555 and post 3 redirects to the resolved URL and writes nothing. -/
theorem c3_self_click_suppression_witness :
    visit envSelf ⟨some "555", some "3", some "1", none, none, none⟩ [] "T1"
      = (HttpResp.redirect
          (resolve_target none (some ⟨some "https://x.com/alice", some 555, none⟩)),
         []) :=
  c3_self_click_suppression envSelf
    ⟨some "555", some "3", some "1", none, none, none⟩ [] "T1" 555 3 1
    ⟨some "https://x.com/alice", some 555, none⟩
    (by decide) (by decide) (by decide) rfl rfl

/-! ## C9 -/

/-- C9: a `/visit` request whose `post` or `sess` parameter is present but
unparsable as an integer is rejected with HTTP 400 and the store is
untouched, while absent `post` and `sess` silently default to 0: with both
absent (and no link metadata under post 0) the only row that can be
written carries `post_num = 0` and `session_num = 0`. -/
theorem c9_optional_param_parsing :
    (∀ (env : Env) (req : VisitReq) (db : List Row) (now s : String),
      req.post = some s → pyInt s = none →
      visit env req db now = (HttpResp.badRequest, db)) ∧
    (∀ (env : Env) (req : VisitReq) (db : List Row) (now s : String),
      req.sess = some s → pyInt s = none →
      visit env req db now = (HttpResp.badRequest, db)) ∧
    (∀ (env : Env) (u : String) (i : Int) (ot oun ox : Option String)
       (db : List Row) (now : String),
      pyInt u = some i → env.session_links 0 = none →
      (visit env ⟨some u, none, none, ot, oun, ox⟩ db now).2 = db ∨
      ∃ tgu xu, (visit env ⟨some u, none, none, ot, oun, ox⟩ db now).2
        = db ++ [⟨0, 0, i, tgu, xu, resolve_target ot none, now⟩]) := by
  refine ⟨?_, ?_, ?_⟩
  · intro env req db now s h1 h2
    cases hu : getIntArg req.uid <;> cases hs : getIntArg req.sess <;>
      simp [visit, hu, hs, getIntArg, h1, h2]
  · intro env req db now s h1 h2
    cases hu : getIntArg req.uid <;> cases hp : getIntArg req.post <;>
      simp [visit, hu, hp, getIntArg, h1, h2]
  · intro env u i ot oun ox db now h1 h2
    by_cases hany : (db.any (fun r => sameTriple r 0 0 i)) = true
    · left
      simp [visit, getIntArg, h1, h2, save_click, hany]
    · right
      have hf : db.any (fun r => sameTriple r 0 0 i) = false := by
        simpa using hany
      refine ⟨resolve_tg_username oun (env.user_cache i) i,
        if resolve_x_username ox none (resolve_target ot none) ≠ "Unknown"
          then "@" ++ resolve_x_username ox none (resolve_target ot none)
          else "Unknown", ?_⟩
      simp [visit, getIntArg, h1, h2, save_click, hf]

/-- Witness for C9 at concrete inputs: a non-numeric `post` yields 400 on
an empty store. -/
theorem c9_optional_param_parsing_witness :
    visit env0 ⟨some "5", some "x", some "1", none, none, none⟩ [] "T1"
      = (HttpResp.badRequest, []) :=
  c9_optional_param_parsing.1 env0
    ⟨some "5", some "x", some "1", none, none, none⟩ [] "T1" "x" rfl (by decide)

/-! ## C2 (corrected) -/

/-- Counterexample to C2 as stated: with `uid` absent entirely the
boundary does not answer 400 — the request falls through with `uid`
silently coerced to 0 and a row for visitor 0 is written. -/
theorem c2_missing_uid_counterexample :
    (visit env0 reqAllAbsent [] "2026-01-01 00:00:00").1 ≠ HttpResp.badRequest ∧
    (visit env0 reqAllAbsent [] "2026-01-01 00:00:00").2 ≠ [] ∧
    (visit env0 reqAllAbsent [] "2026-01-01 00:00:00").2
      = [⟨0, 0, 0, "User 0", "Unknown", "https://x.com", "2026-01-01 00:00:00"⟩] := by
  refine ⟨?_, ?_, ?_⟩ <;> decide

/-- C2 as amended: a `uid` that is present but non-numeric is rejected
with HTTP 400 before any row is written, but an absent `uid` is silently
coerced to 0 — the request is not rejected (with `post` and `sess` also
absent it always produces a redirect) and any row it writes carries
`tg_id = 0`. -/
theorem c2_uid_validation (env : Env) (req : VisitReq) (db : List Row)
    (now : String) :
    (∀ s, req.uid = some s → pyInt s = none →
      visit env req db now = (HttpResp.badRequest, db)) ∧
    (req.uid = none → req.post = none → req.sess = none →
      ∃ loc, (visit env req db now).1 = HttpResp.redirect loc) ∧
    (∀ ot oun ox : Option String,
      (visit env ⟨none, none, none, ot, oun, ox⟩ db now).2 = db ∨
      ∃ tgu xu, (visit env ⟨none, none, none, ot, oun, ox⟩ db now).2
        = db ++ [⟨0, 0, 0, tgu, xu,
            resolve_target ot (env.session_links 0), now⟩]) := by
  refine ⟨?_, ?_, ?_⟩
  · intro s h1 h2
    cases hp : getIntArg req.post <;> cases hs : getIntArg req.sess <;>
      simp [visit, hp, hs, getIntArg, h1, h2]
  · intro h1 h2 h3
    cases hl : env.session_links 0 with
    | none =>
      exact ⟨resolve_target req.target none, by simp [visit, getIntArg, h1, h2, h3, hl]⟩
    | some li =>
      by_cases hself : li.poster_id = some (0 : Int)
      · exact ⟨resolve_target req.target (some li),
          by simp [visit, getIntArg, h1, h2, h3, hl, hself]⟩
      · exact ⟨resolve_target req.target (some li),
          by simp [visit, getIntArg, h1, h2, h3, hl, hself]⟩
  · intro ot oun ox
    cases hl : env.session_links 0 with
    | none =>
      by_cases hany : (db.any (fun r => sameTriple r 0 0 0)) = true
      · left
        simp [visit, getIntArg, hl, save_click, hany]
      · right
        have hf : db.any (fun r => sameTriple r 0 0 0) = false := by
          simpa using hany
        refine ⟨resolve_tg_username oun (env.user_cache 0) 0,
          if resolve_x_username ox none (resolve_target ot none) ≠ "Unknown"
            then "@" ++ resolve_x_username ox none (resolve_target ot none)
            else "Unknown", ?_⟩
        simp [visit, getIntArg, hl, save_click, hf]
    | some li =>
      by_cases hself : li.poster_id = some (0 : Int)
      · left
        simp [visit, getIntArg, hl, hself]
      · by_cases hany : (db.any (fun r => sameTriple r 0 0 0)) = true
        · left
          simp [visit, getIntArg, hl, hself, save_click, hany]
        · right
          have hf : db.any (fun r => sameTriple r 0 0 0) = false := by
            simpa using hany
          refine ⟨resolve_tg_username oun (env.user_cache 0) 0,
            if resolve_x_username ox (some li) (resolve_target ot (some li)) ≠ "Unknown"
              then "@" ++ resolve_x_username ox (some li) (resolve_target ot (some li))
              else "Unknown", ?_⟩
          simp [visit, getIntArg, hl, hself, save_click, hf]

/-- Witness for the amended C2 at concrete inputs: a present non-numeric
`uid` gives 400 and leaves the store unchanged. -/
theorem c2_uid_validation_witness :
    visit env0 ⟨some "abc", some "3", some "1", none, none, none⟩ [] "T1"
      = (HttpResp.badRequest, []) :=
  (c2_uid_validation env0
      ⟨some "abc", some "3", some "1", none, none, none⟩ [] "T1").1
    "abc" rfl (by decide)

/-! ## C10 -/

/-- C10: whenever the explicit `target` parameter strips to a non-empty
string and the request is not suppressed as a self-click, the redirect
Location is exactly that stripped string — no scheme, host or domain
validation intervenes. -/
theorem c10_open_redirect (env : Env) (req : VisitReq) (db : List Row)
    (now : String) (uid post sess : Int) (t : String)
    (h1 : getIntArg req.uid = some uid) (h2 : getIntArg req.post = some post)
    (h3 : getIntArg req.sess = some sess)
    (h4 : req.target = some t) (h5 : pyStrip t ≠ "")
    (h6 : ∀ li, env.session_links post = some li → ¬ li.poster_id = some uid) :
    (visit env req db now).1 = HttpResp.redirect (pyStrip t) := by
  have htarget : ∀ li, resolve_target req.target li = pyStrip t := by
    intro li
    rw [h4]
    exact resolve_target_of_override (some t) li h5
  cases hl : env.session_links post with
  | none =>
    simp [visit, h1, h2, h3, hl, htarget]
  | some li =>
    have hns := h6 li hl
    simp [visit, h1, h2, h3, hl, hns, htarget]

/-- Witness for C10: an arbitrary non-platform URL supplied as `target`
becomes the redirect Location verbatim after stripping. -/
theorem c10_open_redirect_witness :
    (visit env0 ⟨some "9", some "1", some "2",
        some "  https://evil.example/phish  ", none, none⟩ [] "T1").1
      = HttpResp.redirect (pyStrip "  https://evil.example/phish  ") :=
  c10_open_redirect env0
    ⟨some "9", some "1", some "2", some "  https://evil.example/phish  ", none, none⟩
    [] "T1" 9 1 2 "  https://evil.example/phish  "
    (by decide) (by decide) (by decide) rfl (by decide)
    (fun li h => Option.noConfusion h)

/-! ## C4 -/

/-- C4: for each of `target_url`, `tg_username` (visitor_label) and
`x_username` (target_username) independently, a non-empty explicit query
override beats the side-channel cache, the side-channel cache beats the
computed fallback, and the fallback applies otherwise; `target_url` is
never empty, falling back to the hardcoded destination; and on every
parsed `/visit` request the redirect Location is the resolved
`target_url`. -/
theorem c4_resolution_precedence :
    (∀ (ot : Option String) (li : Option LinkInfo),
      pyStrip (ot.getD "") ≠ "" → resolve_target ot li = pyStrip (ot.getD "")) ∧
    (∀ (ot : Option String) (l : LinkInfo),
      pyStrip (ot.getD "") = "" → pyStrip (l.url.getD "") ≠ "" →
      resolve_target ot (some l) = pyStrip (l.url.getD "")) ∧
    (∀ ot : Option String,
      pyStrip (ot.getD "") = "" → resolve_target ot none = "https://x.com") ∧
    (∀ (ot : Option String) (l : LinkInfo),
      pyStrip (ot.getD "") = "" → pyStrip (l.url.getD "") = "" →
      resolve_target ot (some l) = "https://x.com") ∧
    (∀ (ot : Option String) (li : Option LinkInfo), resolve_target ot li ≠ "") ∧
    (∀ (oun : Option String) (cu : Option CachedUser) (uid : Int),
      pyStrip (oun.getD "") ≠ "" →
      resolve_tg_username oun cu uid = pyStrip (oun.getD "")) ∧
    (∀ (oun : Option String) (c : CachedUser) (uid : Int) (u : String),
      pyStrip (oun.getD "") = "" → c.username = some u → u ≠ "" →
      resolve_tg_username oun (some c) uid = "@" ++ u) ∧
    (∀ (oun : Option String) (c : CachedUser) (uid : Int),
      pyStrip (oun.getD "") = "" →
      (c.username = none ∨ c.username = some "") →
      resolve_tg_username oun (some c) uid
        = c.full_name.getD ("User " ++ toString uid)) ∧
    (∀ (oun : Option String) (uid : Int),
      pyStrip (oun.getD "") = "" →
      resolve_tg_username oun none uid = "User " ++ toString uid) ∧
    (∀ (ox : Option String) (li : Option LinkInfo) (tu : String),
      pyStrip (removeAts (ox.getD "")) ≠ "" →
      resolve_x_username ox li tu = pyStrip (removeAts (ox.getD ""))) ∧
    (∀ (ox : Option String) (l : LinkInfo) (tu : String),
      pyStrip (removeAts (ox.getD "")) = "" →
      pyStrip (removeAts (l.x_username.getD "")) ≠ "" →
      resolve_x_username ox (some l) tu
        = pyStrip (removeAts (l.x_username.getD ""))) ∧
    (∀ (ox : Option String) (tu : String),
      pyStrip (removeAts (ox.getD "")) = "" →
      resolve_x_username ox none tu = _extract_x_username tu) ∧
    (∀ (ox : Option String) (l : LinkInfo) (tu : String),
      pyStrip (removeAts (ox.getD "")) = "" →
      pyStrip (removeAts (l.x_username.getD "")) = "" →
      resolve_x_username ox (some l) tu = _extract_x_username tu) ∧
    (∀ (env : Env) (req : VisitReq) (db : List Row) (now : String)
       (uid post sess : Int),
      getIntArg req.uid = some uid → getIntArg req.post = some post →
      getIntArg req.sess = some sess →
      (visit env req db now).1
        = HttpResp.redirect (resolve_target req.target (env.session_links post))) := by
  refine ⟨?_, ?_, ?_, ?_, resolve_target_ne_empty, ?_, ?_, ?_, ?_, ?_, ?_, ?_, ?_, ?_⟩
  · intro ot li h
    exact resolve_target_of_override ot li h
  · intro ot l h1 h2
    simp [resolve_target, h1, h2]
  · intro ot h1
    simp [resolve_target, h1]
  · intro ot l h1 h2
    simp [resolve_target, h1, h2]
  · intro oun cu uid h
    simp [resolve_tg_username, h]
  · intro oun c uid u h1 h2 h3
    simp [resolve_tg_username, h1, h2, h3]
  · intro oun c uid h1 h2
    rcases h2 with h2 | h2 <;> simp [resolve_tg_username, h1, h2]
  · intro oun uid h1
    simp [resolve_tg_username, h1]
  · intro ox li tu h
    simp [resolve_x_username, h]
  · intro ox l tu h1 h2
    simp [resolve_x_username, h1, h2]
  · intro ox tu h1
    simp [resolve_x_username, h1]
  · intro ox l tu h1 h2
    simp [resolve_x_username, h1, h2]
  · intro env req db now uid post sess h1 h2 h3
    cases hl : env.session_links post with
    | none => simp [visit, h1, h2, h3, hl]
    | some li =>
      by_cases hself : li.poster_id = some uid
      · simp [visit, h1, h2, h3, hl, hself]
      · simp [visit, h1, h2, h3, hl, hself]

/-- Witness for C4 at concrete inputs: an explicit `target` override beats
a cached link URL. -/
theorem c4_resolution_precedence_witness :
    pyStrip ((some "https://a.example/p").getD "") ≠ "" ∧
    resolve_target (some "https://a.example/p")
        (some ⟨some "https://x.com/alice", some 555, none⟩)
      = pyStrip ((some "https://a.example/p").getD "") :=
  ⟨by decide,
   c4_resolution_precedence.1 (some "https://a.example/p")
     (some ⟨some "https://x.com/alice", some 555, none⟩) (by decide)⟩

/-! ## C5 (corrected) -/

/-- Counterexample to C5 as stated. First input: the host `myx.company` is
not the platform domain `x.com`, yet the code accepts it (the check is
substring containment on the lowercased netloc), deriving "alice" instead
of the sentinel "Unknown". Second input: the code deletes every "@" from
the chosen path segment, not only a leading one, turning `al@ice` into
"alice". -/
theorem c5_extract_counterexample :
    _extract_x_username "https://myx.company/alice" = "alice" ∧
    _extract_x_username "https://x.com/al@ice" = "alice" := by
  constructor <;> decide

/-- C5 as amended: the URL is parsed; the derived value is the sentinel
"Unknown" when the URL is empty, when parsing fails, when the lowercased
host does not CONTAIN "x.com" as a substring (mere containment also lets
unrelated hosts such as `myx.company` pass), or when no non-empty path
segment exists; otherwise it is the first non-empty path segment with ALL
"@" characters deleted (not only a leading one); consequently the derived
value never contains "@". -/
theorem c5_extract_amended :
    _extract_x_username "" = "Unknown" ∧
    (∀ url, pyUrlparseNP url = none → _extract_x_username url = "Unknown") ∧
    (∀ url nl p, pyUrlparseNP url = some (nl, p) →
      listContains "x.com".data (nl.data.map Char.toLower) = false →
      _extract_x_username url = "Unknown") ∧
    (∀ url nl p, pyUrlparseNP url = some (nl, p) →
      (splitOnChar '/' p.data).filter (fun q => !q.isEmpty) = [] →
      _extract_x_username url = "Unknown") ∧
    (∀ url nl p seg rest, pyUrlparseNP url = some (nl, p) →
      listContains "x.com".data (nl.data.map Char.toLower) = true →
      (splitOnChar '/' p.data).filter (fun q => !q.isEmpty) = seg :: rest →
      _extract_x_username url = String.mk (seg.filter (fun c => c != '@'))) ∧
    (∀ url, _extract_x_username url = "Unknown" ∨
      '@' ∉ (_extract_x_username url).data) := by
  refine ⟨by decide, ?_, ?_, ?_, ?_, ?_⟩
  · intro url h
    by_cases hu : url = "" <;> simp [_extract_x_username, hu, h]
  · intro url nl p h1 h2
    by_cases hu : url = "" <;> simp [_extract_x_username, hu, h1, h2]
  · intro url nl p h1 h3
    by_cases hu : url = ""
    · simp [_extract_x_username, hu]
    · by_cases h2 : listContains "x.com".data (nl.data.map Char.toLower) <;>
        simp [_extract_x_username, hu, h1, h2, h3]
  · intro url nl p seg rest h1 h2 h3
    by_cases hu : url = ""
    · rw [hu] at h1
      rw [show pyUrlparseNP "" = some ("", "") from by decide] at h1
      simp only [Option.some.injEq, Prod.mk.injEq] at h1
      obtain ⟨hnl, hp⟩ := h1
      subst hnl
      exact absurd h2 (by decide)
    · simp [_extract_x_username, hu, h1, h2, h3]
  · intro url
    by_cases hu : url = ""
    · left
      simp [_extract_x_username, hu]
    · cases h1 : pyUrlparseNP url with
      | none => left; simp [_extract_x_username, hu, h1]
      | some np =>
        by_cases h2 : listContains "x.com".data (np.1.data.map Char.toLower)
        · cases h3 : (splitOnChar '/' np.2.data).filter (fun q => !q.isEmpty) with
          | nil => left; simp [_extract_x_username, hu, h1, h2, h3]
          | cons seg rest =>
            right
            simp [_extract_x_username, hu, h1, h2, h3]
        · left
          simp [_extract_x_username, hu, h1, h2]

/-! ## C6 -/

/-- The normalization invariant of stored handles: the sentinel "Unknown"
verbatim, or a leading "@" with no further "@" anywhere after it. -/
def handleNorm (s : String) : Prop :=
  s = "Unknown" ∨ (s.data.head? = some '@' ∧ '@' ∉ s.data.tail)

theorem mem_pyStripList {c : Char} {l : List Char} (h : c ∈ pyStripList l) :
    c ∈ l := by
  unfold pyStripList at h
  rw [List.mem_reverse] at h
  have h2 := (List.dropWhile_sublist _).mem h
  rw [List.mem_reverse] at h2
  exact (List.dropWhile_sublist _).mem h2

theorem at_not_mem_strip_removeAts (s : String) :
    '@' ∉ (pyStrip (removeAts s)).data := by
  intro h
  have h2 := mem_pyStripList h
  simp [removeAts] at h2

theorem at_not_mem_extract (url : String) :
    '@' ∉ (_extract_x_username url).data := by
  unfold _extract_x_username
  by_cases hu : url = ""
  · rw [if_pos hu]
    decide
  · rw [if_neg hu]
    cases h1 : pyUrlparseNP url with
    | none => decide
    | some np =>
      dsimp only
      by_cases h2 : listContains "x.com".data (np.1.data.map Char.toLower) = true
      · rw [if_pos h2]
        cases h3 : (splitOnChar '/' np.2.data).filter (fun q => !q.isEmpty) with
        | nil => decide
        | cons seg rest =>
          intro hmem
          simp at hmem
      · rw [if_neg h2]
        decide

theorem resolve_x_of_override (ox : Option String) (li : Option LinkInfo)
    (tu : String) (h : pyStrip (removeAts (ox.getD "")) ≠ "") :
    resolve_x_username ox li tu = pyStrip (removeAts (ox.getD "")) := by
  simp [resolve_x_username, h]

theorem resolve_x_of_link (ox : Option String) (l : LinkInfo) (tu : String)
    (h0 : pyStrip (removeAts (ox.getD "")) = "")
    (h1 : pyStrip (removeAts (l.x_username.getD "")) ≠ "") :
    resolve_x_username ox (some l) tu
      = pyStrip (removeAts (l.x_username.getD "")) := by
  simp [resolve_x_username, h0, h1]

theorem resolve_x_fallback_none (ox : Option String) (tu : String)
    (h0 : pyStrip (removeAts (ox.getD "")) = "") :
    resolve_x_username ox none tu = _extract_x_username tu := by
  simp [resolve_x_username, h0]

theorem resolve_x_fallback_some (ox : Option String) (l : LinkInfo)
    (tu : String) (h0 : pyStrip (removeAts (ox.getD "")) = "")
    (h1 : pyStrip (removeAts (l.x_username.getD "")) = "") :
    resolve_x_username ox (some l) tu = _extract_x_username tu := by
  simp [resolve_x_username, h0, h1]

theorem at_not_mem_resolve_x (ox : Option String) (li : Option LinkInfo)
    (tu : String) : '@' ∉ (resolve_x_username ox li tu).data := by
  by_cases h0 : pyStrip (removeAts (ox.getD "")) = ""
  · cases li with
    | none =>
      rw [resolve_x_fallback_none ox tu h0]
      exact at_not_mem_extract tu
    | some l =>
      by_cases h1 : pyStrip (removeAts (l.x_username.getD "")) = ""
      · rw [resolve_x_fallback_some ox l tu h0 h1]
        exact at_not_mem_extract tu
      · rw [resolve_x_of_link ox l tu h0 h1]
        exact at_not_mem_strip_removeAts _
  · rw [resolve_x_of_override ox li tu h0]
    exact at_not_mem_strip_removeAts _

/-- C6: every row in the store after a `/visit` request was either already
stored or has an `x_username` that is the sentinel "Unknown" verbatim or a
handle with exactly one leading "@" (no further "@" occurs at all). -/
theorem c6_stored_handle_normalized (env : Env) (req : VisitReq)
    (db : List Row) (now : String) :
    ∀ r ∈ (visit env req db now).2, r ∈ db ∨ handleNorm r.x_username := by
  intro r hr
  cases hu : getIntArg req.uid with
  | none =>
    simp [visit, hu] at hr
    exact Or.inl hr
  | some uid =>
    cases hp : getIntArg req.post with
    | none =>
      simp [visit, hu, hp] at hr
      exact Or.inl hr
    | some post =>
      cases hs : getIntArg req.sess with
      | none =>
        simp [visit, hu, hp, hs] at hr
        exact Or.inl hr
      | some sess =>
        by_cases hself : (match env.session_links post with
          | some l => decide (l.poster_id = some uid)
          | none => false) = true
        · simp only [visit, hu, hp, hs, hself, if_true, if_pos hself] at hr
          exact Or.inl hr
        · simp only [visit, hu, hp, hs, if_neg hself] at hr
          rcases save_click_mem r hr with h | h
          · exact Or.inl h
          · right
            rw [h]
            show handleNorm (if resolve_x_username req.xuser (env.session_links post)
              (resolve_target req.target (env.session_links post)) ≠ "Unknown"
              then "@" ++ resolve_x_username req.xuser (env.session_links post)
                (resolve_target req.target (env.session_links post))
              else "Unknown")
            by_cases hx : resolve_x_username req.xuser (env.session_links post)
                (resolve_target req.target (env.session_links post)) = "Unknown"
            · rw [if_neg (by simpa using hx)]
              exact Or.inl rfl
            · rw [if_pos hx]
              refine Or.inr ⟨rfl, ?_⟩
              exact at_not_mem_resolve_x _ _ _

/-- Witness for C6 at a concrete request: the one row written by a plain
visit satisfies the normalization invariant. -/
theorem c6_stored_handle_normalized_witness :
    (⟨1, 3, 555, "User 555", "@alice", "https://x.com/alice", "T1"⟩ : Row)
        ∈ (visit env0 ⟨some "555", some "3", some "1",
            some "https://x.com/alice", none, none⟩ [] "T1").2 ∧
    ((⟨1, 3, 555, "User 555", "@alice", "https://x.com/alice", "T1"⟩ : Row) ∈
        ([] : List Row) ∨
      handleNorm (Row.mk 1 3 555 "User 555" "@alice" "https://x.com/alice" "T1").x_username) :=
  ⟨by decide,
   c6_stored_handle_normalized env0
     ⟨some "555", some "3", some "1", some "https://x.com/alice", none, none⟩
     [] "T1" ⟨1, 3, 555, "User 555", "@alice", "https://x.com/alice", "T1"⟩
     (by decide)⟩

/-! ## C7 -/

theorem rowLe_total (a b : Row) : rowLe a b = true ∨ rowLe b a = true := by
  unfold rowLe
  rcases le_total a.clicked_at b.clicked_at with h | h <;> simp [h]

theorem rowLe_trans {a b c : Row} (h1 : rowLe a b = true)
    (h2 : rowLe b c = true) : rowLe a c = true := by
  simp only [rowLe, decide_eq_true_eq] at h1 h2 ⊢
  exact le_trans h1 h2

theorem insertRow_perm (x : Row) (l : List Row) :
    List.Perm (insertRow x l) (x :: l) := by
  induction l with
  | nil => rfl
  | cons y ys ih =>
    unfold insertRow
    by_cases h : rowLe x y = true
    · simp [h]
    · simp only [h, if_false, Bool.false_eq_true]
      exact (ih.cons y).trans (List.Perm.swap x y ys)

theorem sortRows_perm (l : List Row) : List.Perm (sortRows l) l := by
  induction l with
  | nil => rfl
  | cons x xs ih =>
    unfold sortRows
    exact (insertRow_perm x (sortRows xs)).trans (ih.cons x)

theorem pairwise_insertRow (x : Row) (l : List Row)
    (h : l.Pairwise (fun a b => rowLe a b = true)) :
    (insertRow x l).Pairwise (fun a b => rowLe a b = true) := by
  induction l with
  | nil => simp [insertRow]
  | cons y ys ih =>
    rcases List.pairwise_cons.mp h with ⟨hy, hys⟩
    unfold insertRow
    by_cases hxy : rowLe x y = true
    · simp only [hxy, if_true]
      refine List.Pairwise.cons ?_ h
      intro z hz
      rcases List.mem_cons.mp hz with rfl | hz2
      · exact hxy
      · exact rowLe_trans hxy (hy z hz2)
    · simp only [hxy, if_false, Bool.false_eq_true]
      refine List.Pairwise.cons ?_ (ih hys)
      intro z hz
      have hz2 := (insertRow_perm x ys).mem_iff.mp hz
      rcases List.mem_cons.mp hz2 with hzx | hz3
      · rw [hzx]
        rcases rowLe_total x y with hc | hc
        · exact absurd hc hxy
        · exact hc
      · exact hy z hz3

theorem pairwise_sortRows (l : List Row) :
    (sortRows l).Pairwise (fun a b => rowLe a b = true) := by
  induction l with
  | nil => simp [sortRows]
  | cons x xs ih =>
    unfold sortRows
    exact pairwise_insertRow x (sortRows xs) ih

/-- C7: the read endpoint returns, for a session, exactly the stored rows
of that session (a permutation of the session's rows, so none of any other
session), sorted ascending by `clicked_at`; each emitted JSON object
carries exactly the wire field names `post_num, tg_id, tg_username,
x_username, x_link, clicked_at` in order; a session with no rows yields an
empty list; and the route leaves the store untouched. -/
theorem c7_session_clicks_read (db : List Row) (s : Int) :
    List.Perm (get_session_clicks db s)
      (db.filter (fun r => decide (r.session_num = s))) ∧
    (get_session_clicks db s).Pairwise
      (fun a b => a.clicked_at ≤ b.clicked_at) ∧
    (∀ obj ∈ api_clicks db s, obj.map Prod.fst
      = ["post_num", "tg_id", "tg_username", "x_username", "x_link",
         "clicked_at"]) ∧
    ((∀ r ∈ db, r.session_num ≠ s) → api_clicks db s = []) ∧
    (get_session_clicks_route db s).1 = db := by
  refine ⟨sortRows_perm _, ?_, ?_, ?_, rfl⟩
  · exact (pairwise_sortRows _).imp
      (fun h => by simpa [rowLe] using h)
  · intro obj hobj
    rcases List.mem_map.mp hobj with ⟨r, _, rfl⟩
    simp [clickJson]
  · intro hnone
    have hfil : db.filter (fun r => decide (r.session_num = s)) = [] := by
      rw [List.filter_eq_nil_iff]
      intro r hr
      simp [hnone r hr]
    simp [api_clicks, get_session_clicks, hfil, sortRows]

/-- Witness for C7 at a concrete store: a session with no rows yields the
empty list. -/
theorem c7_session_clicks_read_witness :
    (∀ r ∈ [Row.mk 1 3 555 "User 555" "@alice" "https://x.com/alice" "T1"],
      r.session_num ≠ (2 : Int)) ∧
    api_clicks [Row.mk 1 3 555 "User 555" "@alice" "https://x.com/alice" "T1"] 2
      = [] :=
  ⟨by decide,
   (c7_session_clicks_read
       [Row.mk 1 3 555 "User 555" "@alice" "https://x.com/alice" "T1"]
       2).2.2.2.1 (by decide)⟩

/-- Witness for the amended C5 at a concrete URL whose host lacks the
"x.com" substring: the derived handle is the sentinel. -/
theorem c5_extract_amended_witness :
    pyUrlparseNP "https://example.org/bob" = some ("example.org", "/bob") ∧
    listContains "x.com".data ("example.org".data.map Char.toLower) = false ∧
    _extract_x_username "https://example.org/bob" = "Unknown" :=
  ⟨by decide, by decide,
   c5_extract_amended.2.2.1 "https://example.org/bob" "example.org" "/bob"
     (by decide) (by decide)⟩
